import Mathlib

/-!
# Verification of `src/c/src/ctype.c` (rust-locale)

A shallow embedding of the six exported functions of `ctype.c`:
`utf8towc`, `wctoutf8`, `iswspace_native`, `iswblank_native`,
`towupper_native`, `towlower_native`.

The C code is a thin wrapper around POSIX locale primitives.  We model:

* the platform environment (`Env`): which locale names `newlocale` can
  resolve, the LC_CTYPE name of the global locale, and the behaviour of the
  classification / case-mapping primitives (`iswspace`, `iswblank`,
  `towupper`, `towlower`) as functions of the LC_CTYPE name active when they
  are invoked;
* the thread's locale state (`CState`): the active-locale register written by
  `uselocale`, the set of live locale handles, a `badFree` flag that records
  any `freelocale` call on a null or dead handle (undefined behaviour in
  POSIX), the ordered trace of `newlocale` name attempts, and a counter of
  conversion/classification primitive invocations;
* `mbrtowc` / `wcrtomb` under a UTF-8 LC_CTYPE (the only situation in which
  the C code invokes them: it has just installed a `"C.UTF-8"` or
  `"en_US.UTF-8"` locale) with their POSIX semantics, including the in-band
  `size_t` codes `(size_t)-1`, `(size_t)-2` and the special return value `0`
  for the null wide character.

Machine integers: `size_t` values are `Nat` with the two error codes
`2^64 - 1` and `2^64 - 2`; `ssize_t`/`int` results are `Int`; the
`size_t → ssize_t` conversion performed by `ssize_t ret = wcrtomb(...)` is
`toSsize`.
-/

namespace CtypeC

/-- A locale value that can sit in the active-locale register: either
`LC_GLOBAL_LOCALE` or a handle produced by `newlocale`, tagged with the
LC_CTYPE name it was built from. -/
inductive LocaleVal where
  | global : LocaleVal
  | handle (id : Nat) (name : String) : LocaleVal
deriving DecidableEq, Repr

/-- The platform environment: locale-name resolution and the behaviour of the
classification primitives, as a function of the LC_CTYPE name in effect. -/
structure Env where
  /-- whether `newlocale(LC_CTYPE_MASK, name, 0)` succeeds for this name -/
  localeOk : String → Bool
  /-- the LC_CTYPE name of the global locale (`LC_GLOBAL_LOCALE`) -/
  globalCtype : String
  /-- raw `int` result of `iswspace` under a given LC_CTYPE name -/
  iswspaceFn : String → Nat → Int
  /-- raw `int` result of `iswblank` under a given LC_CTYPE name -/
  iswblankFn : String → Nat → Int
  /-- result of `towupper` under a given LC_CTYPE name -/
  towupperFn : String → Nat → Nat
  /-- result of `towlower` under a given LC_CTYPE name -/
  towlowerFn : String → Nat → Nat

/-- Thread/process state affected by the C code. -/
structure CState where
  /-- the thread's active-locale register, written by `uselocale` -/
  active : LocaleVal
  /-- next fresh handle id for `newlocale` -/
  nextId : Nat
  /-- ids of locale handles that are allocated and not yet freed -/
  live : List Nat
  /-- set when `freelocale` is invoked on a null or non-live handle (UB) -/
  badFree : Bool
  /-- ordered trace of names passed to `newlocale` -/
  calls : List String
  /-- number of conversion/classification primitive invocations -/
  primCalls : Nat
deriving DecidableEq, Repr

/-- LC_CTYPE name in effect for a given active-locale value. -/
def ctypeOf (env : Env) (l : LocaleVal) : String :=
  match l with
  | .global => env.globalCtype
  | .handle _ name => name

/-- `newlocale(LC_CTYPE_MASK, name, 0)`: returns a fresh handle (recorded as
live) when the environment can resolve `name`, and null (`none`) otherwise.
Every attempt is recorded in the `calls` trace. -/
def newlocale (env : Env) (name : String) (s : CState) : Option LocaleVal × CState :=
  if env.localeOk name then
    (some (.handle s.nextId name),
      { s with nextId := s.nextId + 1, live := s.nextId :: s.live,
               calls := s.calls ++ [name] })
  else
    (none, { s with calls := s.calls ++ [name] })

/-- `uselocale(l)`: installs `l` in the active-locale register; per POSIX,
`uselocale((locale_t) 0)` is a pure query and changes nothing. -/
def uselocale (l : Option LocaleVal) (s : CState) : CState :=
  match l with
  | none => s
  | some v => { s with active := v }

/-- `freelocale(l)`: releases a live handle; calling it on a null handle, on
`LC_GLOBAL_LOCALE`, or on a handle that is not live is undefined behaviour,
recorded in `badFree`. -/
def freelocale (l : Option LocaleVal) (s : CState) : CState :=
  match l with
  | some (.handle id _) =>
      if id ∈ s.live then { s with live := s.live.erase id }
      else { s with badFree := true }
  | _ => { s with badFree := true }

/-- `utf8_locale()` from ctype.c: try `newlocale(LC_CTYPE_MASK, "C.UTF-8", 0)`
and, only if that returned null, `newlocale(LC_CTYPE_MASK, "en_US.UTF-8", 0)`. -/
def utf8_locale (env : Env) (s : CState) : Option LocaleVal × CState :=
  let r := newlocale env "C.UTF-8" s
  match r.1 with
  | some _ => r
  | none => newlocale env "en_US.UTF-8" r.2

/-- `utf8_locale` succeeds iff one of the two names resolves. -/
def utf8LocaleAvail (env : Env) : Prop :=
  env.localeOk "C.UTF-8" = true ∨ env.localeOk "en_US.UTF-8" = true

instance (env : Env) : Decidable (utf8LocaleAvail env) := by
  unfold utf8LocaleAvail; infer_instance

/-! ## UTF-8 decoding and encoding (`mbrtowc` / `wcrtomb` under a UTF-8 LC_CTYPE)

`utf8DecodeOne bs` examines the byte list `bs` from the front and reports
either a complete scalar value together with the number of bytes it occupies,
or that `bs` is a proper prefix of some valid encoding (`incomplete`), or that
no valid encoding starts with `bs` (`invalid`).  This is RFC 3629 UTF-8:
codepoints `0 .. 0x10FFFF`, no surrogates, no overlong forms. -/

/-- Result of examining the front of a byte sequence for one UTF-8 character. -/
inductive DecodeRes where
  | ok (cp : Nat) (k : Nat)
  | incomplete
  | invalid
deriving DecidableEq, Repr

/-- Decode one UTF-8 character from the front of a byte list. -/
def utf8DecodeOne (bs : List Nat) : DecodeRes :=
  match bs with
  | [] => .incomplete
  | b0 :: rest =>
    if b0 < 0x80 then .ok b0 1
    else if b0 < 0xC2 then .invalid
    else if b0 < 0xE0 then
      match rest with
      | [] => .incomplete
      | b1 :: _ =>
        if 0x80 ≤ b1 ∧ b1 < 0xC0 then .ok (b0 % 0x20 * 0x40 + b1 % 0x40) 2
        else .invalid
    else if b0 < 0xF0 then
      match rest with
      | [] => .incomplete
      | [b1] =>
        if (0x80 ≤ b1 ∧ b1 < 0xC0) ∧ (b0 = 0xE0 → 0xA0 ≤ b1) ∧ (b0 = 0xED → b1 < 0xA0) then
          .incomplete
        else .invalid
      | b1 :: b2 :: _ =>
        if (0x80 ≤ b1 ∧ b1 < 0xC0) ∧ (b0 = 0xE0 → 0xA0 ≤ b1) ∧ (b0 = 0xED → b1 < 0xA0)
            ∧ (0x80 ≤ b2 ∧ b2 < 0xC0) then
          .ok (b0 % 0x10 * 0x1000 + b1 % 0x40 * 0x40 + b2 % 0x40) 3
        else .invalid
    else if b0 < 0xF5 then
      match rest with
      | [] => .incomplete
      | [b1] =>
        if (0x80 ≤ b1 ∧ b1 < 0xC0) ∧ (b0 = 0xF0 → 0x90 ≤ b1) ∧ (b0 = 0xF4 → b1 < 0x90) then
          .incomplete
        else .invalid
      | [b1, b2] =>
        if ((0x80 ≤ b1 ∧ b1 < 0xC0) ∧ (b0 = 0xF0 → 0x90 ≤ b1) ∧ (b0 = 0xF4 → b1 < 0x90))
            ∧ (0x80 ≤ b2 ∧ b2 < 0xC0) then
          .incomplete
        else .invalid
      | b1 :: b2 :: b3 :: _ =>
        if ((0x80 ≤ b1 ∧ b1 < 0xC0) ∧ (b0 = 0xF0 → 0x90 ≤ b1) ∧ (b0 = 0xF4 → b1 < 0x90))
            ∧ (0x80 ≤ b2 ∧ b2 < 0xC0) ∧ (0x80 ≤ b3 ∧ b3 < 0xC0) then
          .ok (b0 % 8 * 0x40000 + b1 % 0x40 * 0x1000 + b2 % 0x40 * 0x40 + b3 % 0x40) 4
        else .invalid
    else .invalid

/-- Encode one scalar value to UTF-8; `none` for surrogates and values above
`0x10FFFF`. -/
def utf8Encode (c : Nat) : Option (List Nat) :=
  if c < 0x80 then some [c]
  else if c < 0x800 then some [0xC0 + c / 0x40, 0x80 + c % 0x40]
  else if c < 0x10000 then
    if 0xD800 ≤ c ∧ c < 0xE000 then none
    else some [0xE0 + c / 0x1000, 0x80 + c / 0x40 % 0x40, 0x80 + c % 0x40]
  else if c < 0x110000 then
    some [0xF0 + c / 0x40000, 0x80 + c / 0x1000 % 0x40, 0x80 + c / 0x40 % 0x40, 0x80 + c % 0x40]
  else none

/-- `mbstate_t`: pending bytes of an incomplete sequence carried across calls.
The zero-filled state produced by `memset(&state, 0, sizeof state)` is
`mbInit`. -/
structure MbState where
  pending : List Nat
deriving DecidableEq, Repr

/-- The initial (zero) conversion state. -/
def mbInit : MbState := ⟨[]⟩

/-- `(size_t)-1` on LP64. -/
def SIZE_M1 : Nat := 2 ^ 64 - 1

/-- `(size_t)-2` on LP64. -/
def SIZE_M2 : Nat := 2 ^ 64 - 2

/-- `mbrtowc(pwc, bytes, n, st)` under a UTF-8 LC_CTYPE: examines the pending
bytes of `st` followed by at most `n` new bytes; on a complete character it
stores the codepoint and returns the number of new bytes consumed — except
that completing the null wide character returns `0`; an incomplete prefix
returns `(size_t)-2`; an invalid sequence returns `(size_t)-1`.  The first
component is the raw `size_t` return value, the second the value stored
through `pwc` (`none` when nothing is stored). -/
def mbrtowc (st : MbState) (bytes : List Nat) (n : Nat) : Nat × Option Nat :=
  match utf8DecodeOne (st.pending ++ bytes.take n) with
  | .ok cp k => (if cp = 0 then 0 else k - st.pending.length, some cp)
  | .incomplete => (SIZE_M2, none)
  | .invalid => (SIZE_M1, none)

/-- `wcrtomb(buf, wc, st)` under a UTF-8 LC_CTYPE: returns the number of bytes
stored, or `(size_t)-1` for a value not encodable in UTF-8 (negative, a
surrogate, or above `0x10FFFF`).  UTF-8 is stateless, so the conversion state
is not consulted.  The second component is the byte list stored into `buf`. -/
def wcrtomb (_st : MbState) (wc : Int) : Nat × List Nat :=
  if 0 ≤ wc then
    match utf8Encode wc.toNat with
    | some bs => (bs.length, bs)
    | none => (SIZE_M1, [])
  else (SIZE_M1, [])

/-- The `size_t → ssize_t` conversion in `ssize_t ret = wcrtomb(...)`. -/
def toSsize (x : Nat) : Int :=
  if x < 2 ^ 63 then (x : Int) else (x : Int) - 2 ^ 64

/-- The `ssize_t` value `wcrtomb` yields for `wc` from the initial state. -/
def wcrtombSsize (wc : Int) : Int := toSsize (wcrtomb mbInit wc).1

/-! ## The six exported operations -/

/-- Output of `utf8towc`: the `uint_fast8_t` status, the value stored through
`wcbuf` (`none` when untouched), and the final state. -/
structure DecodeOut where
  ret : Nat
  wcbuf : Option Nat
  s : CState
deriving DecidableEq, Repr

/-- `utf8towc(wcbuf, utf8_bytes, length)` from ctype.c. -/
def utf8towc (env : Env) (utf8_bytes : List Nat) (length : Nat) (s0 : CState) : DecodeOut :=
  let r := utf8_locale env s0
  match r.1 with
  | none => { ret := 0x1, wcbuf := none, s := r.2 }
  | some lv =>
    let s1 := uselocale (some lv) r.2
    let m := mbrtowc mbInit utf8_bytes length
    let s2 : CState := { s1 with primCalls := s1.primCalls + 1 }
    let ret : Nat := if m.1 ≠ length then 0x2 else 0
    let s3 := uselocale (some .global) s2
    let s4 := freelocale (some lv) s3
    { ret := ret, wcbuf := m.2, s := s4 }

/-- Output of `wctoutf8`: the `ssize_t` result, the bytes stored into
`utf8_bytes`, and the final state. -/
structure EncodeOut where
  ret : Int
  buf : List Nat
  s : CState
deriving DecidableEq, Repr

/-- `wctoutf8(utf8_bytes, wc)` from ctype.c. -/
def wctoutf8 (env : Env) (wc : Int) (s0 : CState) : EncodeOut :=
  let r := utf8_locale env s0
  match r.1 with
  | none => { ret := -0x1, buf := [], s := r.2 }
  | some lv =>
    let s1 := uselocale (some lv) r.2
    let m := wcrtomb mbInit wc
    let s2 : CState := { s1 with primCalls := s1.primCalls + 1 }
    let ret0 : Int := toSsize m.1
    let ret : Int := if ret0 ≤ 0 then -0x2 else ret0
    let s3 := uselocale (some .global) s2
    let s4 := freelocale (some lv) s3
    { ret := ret, buf := m.2, s := s4 }

/-- `iswspace_native(ch)` from ctype.c: returns `-1` when
`newlocale(LC_CTYPE_MASK, "", 0)` fails, otherwise normalizes the nonzero
`iswspace` result to `1`. -/
def iswspace_native (env : Env) (ch : Nat) (s0 : CState) : Int × CState :=
  let r := newlocale env "" s0
  match r.1 with
  | none => (-1, r.2)
  | some lv =>
    let s1 := uselocale (some lv) r.2
    let v := env.iswspaceFn (ctypeOf env s1.active) ch
    let s2 : CState := { s1 with primCalls := s1.primCalls + 1 }
    let s3 := uselocale (some .global) s2
    let s4 := freelocale (some lv) s3
    ((if v ≠ 0 then 1 else 0), s4)

/-- `iswblank_native(ch)` from ctype.c: no null check after `newlocale` — the
possibly-null handle is passed straight to `uselocale` and `freelocale`, and
`iswblank` runs under whatever locale is in effect; its raw result is
returned. -/
def iswblank_native (env : Env) (ch : Nat) (s0 : CState) : Int × CState :=
  let r := newlocale env "" s0
  let s1 := uselocale r.1 r.2
  let v := env.iswblankFn (ctypeOf env s1.active) ch
  let s2 : CState := { s1 with primCalls := s1.primCalls + 1 }
  let s3 := uselocale (some .global) s2
  let s4 := freelocale r.1 s3
  (v, s4)

/-- `towupper_native(ch)` from ctype.c: same shape as `iswblank_native`
(no null check after `newlocale`). -/
def towupper_native (env : Env) (ch : Nat) (s0 : CState) : Nat × CState :=
  let r := newlocale env "" s0
  let s1 := uselocale r.1 r.2
  let v := env.towupperFn (ctypeOf env s1.active) ch
  let s2 : CState := { s1 with primCalls := s1.primCalls + 1 }
  let s3 := uselocale (some .global) s2
  let s4 := freelocale r.1 s3
  (v, s4)

/-- `towlower_native(ch)` from ctype.c: same shape as `iswblank_native`
(no null check after `newlocale`). -/
def towlower_native (env : Env) (ch : Nat) (s0 : CState) : Nat × CState :=
  let r := newlocale env "" s0
  let s1 := uselocale r.1 r.2
  let v := env.towlowerFn (ctypeOf env s1.active) ch
  let s2 : CState := { s1 with primCalls := s1.primCalls + 1 }
  let s3 := uselocale (some .global) s2
  let s4 := freelocale r.1 s3
  (v, s4)

/-! ## Concrete environments and states for witnesses and counterexamples -/

/-- An environment in which every locale name resolves. -/
def envAll : Env :=
  { localeOk := fun _ => true
    globalCtype := "POSIX"
    iswspaceFn := fun _ ch => if ch = 32 ∨ ch = 9 ∨ ch = 10 then 1 else 0
    iswblankFn := fun _ ch => if ch = 32 ∨ ch = 9 then 1 else 0
    towupperFn := fun _ ch => if 97 ≤ ch ∧ ch ≤ 122 then ch - 32 else ch
    towlowerFn := fun _ ch => if 65 ≤ ch ∧ ch ≤ 90 then ch + 32 else ch }

/-- An environment in which no locale name resolves. -/
def envNone : Env :=
  { envAll with localeOk := fun _ => false }

/-- The initial thread state: global locale active, nothing allocated. -/
def st0 : CState :=
  { active := .global, nextId := 0, live := [], badFree := false,
    calls := [], primCalls := 0 }

/-- A thread state whose active-locale register holds a non-global locale
(as after a caller's own `uselocale`). -/
def stH : CState :=
  { st0 with active := .handle 7 "X" }

/-- A second all-global state, differing from `st0` in every other field. -/
def st1 : CState :=
  { active := .global, nextId := 5, live := [3], badFree := false,
    calls := ["x"], primCalls := 9 }

/-! ## Closed forms of the operations -/

theorem utf8_locale_eq (env : Env) (s : CState) :
    utf8_locale env s =
      (if env.localeOk "C.UTF-8" then
        (some (.handle s.nextId "C.UTF-8"),
          { s with nextId := s.nextId + 1, live := s.nextId :: s.live,
                   calls := s.calls ++ ["C.UTF-8"] })
       else if env.localeOk "en_US.UTF-8" then
        (some (.handle s.nextId "en_US.UTF-8"),
          { s with nextId := s.nextId + 1, live := s.nextId :: s.live,
                   calls := s.calls ++ ["C.UTF-8", "en_US.UTF-8"] })
       else (none, { s with calls := s.calls ++ ["C.UTF-8", "en_US.UTF-8"] })) := by
  unfold utf8_locale newlocale
  rcases h1 : env.localeOk "C.UTF-8" <;> rcases h2 : env.localeOk "en_US.UTF-8" <;>
    simp [h1, h2]

theorem utf8towc_eq (env : Env) (b : List Nat) (n : Nat) (s : CState) :
    utf8towc env b n s =
      if utf8LocaleAvail env then
        { ret := if (mbrtowc mbInit b n).1 ≠ n then 0x2 else 0,
          wcbuf := (mbrtowc mbInit b n).2,
          s := { s with nextId := s.nextId + 1, active := LocaleVal.global,
                        calls := s.calls ++
                          (if env.localeOk "C.UTF-8" then ["C.UTF-8"]
                           else ["C.UTF-8", "en_US.UTF-8"]),
                        primCalls := s.primCalls + 1 } }
      else
        { ret := 0x1, wcbuf := none,
          s := { s with calls := s.calls ++ ["C.UTF-8", "en_US.UTF-8"] } } := by
  unfold utf8towc
  rw [utf8_locale_eq]
  rcases h1 : env.localeOk "C.UTF-8" <;> rcases h2 : env.localeOk "en_US.UTF-8" <;>
    simp [utf8LocaleAvail, h1, h2, uselocale, freelocale]

theorem wctoutf8_eq (env : Env) (wc : Int) (s : CState) :
    wctoutf8 env wc s =
      if utf8LocaleAvail env then
        { ret := if toSsize (wcrtomb mbInit wc).1 ≤ 0 then -0x2 else toSsize (wcrtomb mbInit wc).1,
          buf := (wcrtomb mbInit wc).2,
          s := { s with nextId := s.nextId + 1, active := LocaleVal.global,
                        calls := s.calls ++
                          (if env.localeOk "C.UTF-8" then ["C.UTF-8"]
                           else ["C.UTF-8", "en_US.UTF-8"]),
                        primCalls := s.primCalls + 1 } }
      else
        { ret := -0x1, buf := [],
          s := { s with calls := s.calls ++ ["C.UTF-8", "en_US.UTF-8"] } } := by
  unfold wctoutf8
  rw [utf8_locale_eq]
  rcases h1 : env.localeOk "C.UTF-8" <;> rcases h2 : env.localeOk "en_US.UTF-8" <;>
    simp [utf8LocaleAvail, h1, h2, uselocale, freelocale]

theorem iswspace_native_eq (env : Env) (ch : Nat) (s : CState) :
    iswspace_native env ch s =
      if env.localeOk "" then
        ((if env.iswspaceFn "" ch ≠ 0 then 1 else 0),
         { s with nextId := s.nextId + 1, active := .global,
                  calls := s.calls ++ [""], primCalls := s.primCalls + 1 })
      else
        (-1, { s with calls := s.calls ++ [""] }) := by
  unfold iswspace_native newlocale
  rcases h : env.localeOk "" <;> simp [h, uselocale, freelocale, ctypeOf]

theorem iswblank_native_eq (env : Env) (ch : Nat) (s : CState) :
    iswblank_native env ch s =
      if env.localeOk "" then
        (env.iswblankFn "" ch,
         { s with nextId := s.nextId + 1, active := .global,
                  calls := s.calls ++ [""], primCalls := s.primCalls + 1 })
      else
        (env.iswblankFn (ctypeOf env s.active) ch,
         { s with active := .global, badFree := true,
                  calls := s.calls ++ [""], primCalls := s.primCalls + 1 }) := by
  unfold iswblank_native newlocale
  rcases h : env.localeOk "" <;> simp [h, uselocale, freelocale, ctypeOf]

theorem towupper_native_eq (env : Env) (ch : Nat) (s : CState) :
    towupper_native env ch s =
      if env.localeOk "" then
        (env.towupperFn "" ch,
         { s with nextId := s.nextId + 1, active := .global,
                  calls := s.calls ++ [""], primCalls := s.primCalls + 1 })
      else
        (env.towupperFn (ctypeOf env s.active) ch,
         { s with active := .global, badFree := true,
                  calls := s.calls ++ [""], primCalls := s.primCalls + 1 }) := by
  unfold towupper_native newlocale
  rcases h : env.localeOk "" <;> simp [h, uselocale, freelocale, ctypeOf]

theorem towlower_native_eq (env : Env) (ch : Nat) (s : CState) :
    towlower_native env ch s =
      if env.localeOk "" then
        (env.towlowerFn "" ch,
         { s with nextId := s.nextId + 1, active := .global,
                  calls := s.calls ++ [""], primCalls := s.primCalls + 1 })
      else
        (env.towlowerFn (ctypeOf env s.active) ch,
         { s with active := .global, badFree := true,
                  calls := s.calls ++ [""], primCalls := s.primCalls + 1 }) := by
  unfold towlower_native newlocale
  rcases h : env.localeOk "" <;> simp [h, uselocale, freelocale, ctypeOf]

/-! ## UTF-8 round-trip facts -/

/-- Decoding the UTF-8 encoding of a scalar value recovers the value and
consumes the whole encoding. -/
theorem utf8DecodeOne_utf8Encode {c : Nat} {bs : List Nat}
    (h : utf8Encode c = some bs) : utf8DecodeOne bs = .ok c bs.length := by
  unfold utf8Encode at h
  split_ifs at h with h1 h2 h3 h4 h5
  · injection h with h
    subst h
    simp [utf8DecodeOne, h1]
  · injection h with h
    subst h
    simp only [utf8DecodeOne]
    rw [if_neg (by omega), if_neg (by omega), if_pos (by omega),
      if_pos ⟨by omega, by omega⟩]
    congr 1
    omega
  · injection h with h
    subst h
    simp only [utf8DecodeOne]
    rw [if_neg (by omega), if_neg (by omega), if_neg (by omega), if_pos (by omega),
      if_pos ⟨⟨by omega, by omega⟩, by omega, by omega⟩]
    congr 1
    omega
  · injection h with h
    subst h
    simp only [utf8DecodeOne]
    rw [if_neg (by omega), if_neg (by omega), if_neg (by omega), if_neg (by omega),
      if_pos (by omega),
      if_pos ⟨⟨⟨by omega, by omega⟩, by omega, by omega⟩, ⟨by omega, by omega⟩,
        by omega, by omega⟩]
    congr 1
    omega

/-- A UTF-8 encoding is between 1 and 4 bytes long. -/
theorem utf8Encode_length {c : Nat} {bs : List Nat} (h : utf8Encode c = some bs) :
    1 ≤ bs.length ∧ bs.length ≤ 4 := by
  unfold utf8Encode at h
  split_ifs at h <;> (injection h with h; subst h; simp)

/-- `utf8DecodeOne` never reports a completed character on an empty prefix:
a completed result forces a positive byte budget. -/
theorem utf8DecodeOne_ok_pos {bs : List Nat} {n cp k : Nat}
    (h : utf8DecodeOne (bs.take n) = .ok cp k) : 1 ≤ n := by
  by_contra hn
  have h0 : n = 0 := by omega
  subst h0
  simp [utf8DecodeOne] at h

/-! ## Bridging lemmas -/

/-- The `size_t` value `mbrtowc` returns from the zero state equals the
declared length exactly when the decoder completes a character in exactly
`length` bytes and that character is not the null wide character (for which
`mbrtowc` returns `0` instead of the byte count).  The bound on `n` keeps the
in-band codes `(size_t)-1` / `(size_t)-2` from colliding with the length. -/
theorem mbrtowcRetIff (b : List Nat) (n : Nat) (h2 : n < 2 ^ 64 - 2) :
    (mbrtowc mbInit b n).1 = n
      ↔ ∃ cp, utf8DecodeOne (b.take n) = .ok cp n ∧ cp ≠ 0 := by
  unfold mbrtowc
  simp only [mbInit, List.nil_append]
  cases hm : utf8DecodeOne (b.take n) with
  | ok cp k =>
    dsimp only
    have hn := utf8DecodeOne_ok_pos hm
    by_cases hc : cp = 0
    · subst hc
      constructor
      · intro he
        exfalso
        simp at he
        omega
      · rintro ⟨cp2, hd2, hc2⟩
        injection hd2 with e1 e2
        exact absurd e1.symm hc2
    · simp only [if_neg hc, List.length_nil, Nat.sub_zero]
      constructor
      · intro he
        exact ⟨cp, by rw [he], hc⟩
      · rintro ⟨cp2, hd2, hc2⟩
        injection hd2 with e1 e2
  | incomplete =>
    dsimp only
    constructor
    · intro he
      exfalso
      unfold SIZE_M2 at he
      omega
    · rintro ⟨cp2, hd2, hc2⟩
      exact absurd hd2 (by simp)
  | invalid =>
    dsimp only
    constructor
    · intro he
      exfalso
      unfold SIZE_M1 at he
      omega
    · rintro ⟨cp2, hd2, hc2⟩
      exact absurd hd2 (by simp)

/-- Decoding the exact UTF-8 encoding of a nonnull codepoint through
`utf8towc` succeeds and stores the codepoint. -/
theorem utf8towc_encode_ok (env : Env) (c : Nat) (b : List Nat) (s : CState)
    (h1 : utf8LocaleAvail env) (h2 : utf8Encode c = some b) (h3 : c ≠ 0) :
    (utf8towc env b b.length s).ret = 0
      ∧ (utf8towc env b b.length s).wcbuf = some c := by
  have hd := utf8DecodeOne_utf8Encode h2
  rw [utf8towc_eq, if_pos h1]
  unfold mbrtowc
  simp only [mbInit, List.nil_append, List.take_length, hd]
  simp [h3]

/-! ## Claims -/

/-- C1, counterexample.  The claim states that every operation leaves the
thread's active-locale register at its pre-call value.  But each operation
that proceeds past locale construction restores the register with
`uselocale(LC_GLOBAL_LOCALE)`, i.e. forces it to the global marker: starting
from a state whose register holds a caller-installed non-global locale
(`stH`), `utf8towc` returns with the register not equal to its pre-call
value. -/
theorem C1_cex : (utf8towc envAll [65] 1 stH).s.active ≠ stH.active := by decide

/-- C1, amended.  If the active-locale register holds the global/default
marker before the call — the normal situation, and the one the spec describes
("restored to the global/default marker") — then after any of the six
operations it equals its pre-call value, on success and failure paths
alike.  (Operations reset the register to the global marker, not to an
arbitrary pre-call value.) -/
theorem C1_register_restored (env : Env) (b : List Nat) (n : Nat) (wc : Int)
    (ch : Nat) (s : CState) (h : s.active = .global) :
    (utf8towc env b n s).s.active = s.active
      ∧ (wctoutf8 env wc s).s.active = s.active
      ∧ (iswspace_native env ch s).2.active = s.active
      ∧ (iswblank_native env ch s).2.active = s.active
      ∧ (towupper_native env ch s).2.active = s.active
      ∧ (towlower_native env ch s).2.active = s.active := by
  rw [utf8towc_eq, wctoutf8_eq, iswspace_native_eq, iswblank_native_eq,
    towupper_native_eq, towlower_native_eq]
  split_ifs <;> simp_all

/-- C1, witness: the amended claim evaluated at a concrete environment and
the initial (global-register) state. -/
theorem C1_register_restored_w :
    (utf8towc envAll [65] 1 st0).s.active = st0.active :=
  (C1_register_restored envAll [65] 1 65 65 st0 rfl).1

/-- C2, counterexample.  `[0x00]` is the valid 1-byte UTF-8 encoding of the
codepoint 0, yet `utf8towc` on it with length 1 does not return the OK
status: `mbrtowc` returns `0`, not the byte count, for the null wide
character, so the `!= length` test reports DecodeMismatch. -/
theorem C2_cex :
    utf8Encode 0 = some [0] ∧ (utf8towc envAll [0] 1 st0).ret ≠ 0 := by decide

/-- C2, amended.  For every byte buffer `b` that is the valid UTF-8 encoding
of exactly one nonnull codepoint `c`, with a UTF-8-forcing locale available,
`utf8towc(wcbuf, b, length b)` returns the OK status 0 and stores `c` into
`wcbuf` (the witness instantiates this at the 1-byte ASCII encoding of A,
yielding codepoint 65). -/
theorem C2_decode_valid (env : Env) (c : Nat) (b : List Nat) (s : CState)
    (h1 : utf8LocaleAvail env) (h2 : utf8Encode c = some b) (h3 : c ≠ 0) :
    (utf8towc env b b.length s).ret = 0
      ∧ (utf8towc env b b.length s).wcbuf = some c :=
  utf8towc_encode_ok env c b s h1 h2 h3

/-- C2, witness: the ASCII encoding of A with length 1 decodes to OK and
codepoint 65. -/
theorem C2_decode_valid_w :
    (utf8towc envAll [65] 1 st0).ret = 0
      ∧ (utf8towc envAll [65] 1 st0).wcbuf = some 65 :=
  C2_decode_valid envAll 65 [65] st0 (Or.inl rfl) rfl (by decide)

/-- C3, counterexample.  On input `[0x00]` with length 1 the decoder consumes
exactly `length` bytes (`utf8DecodeOne` completes the codepoint 0 in exactly
1 byte), yet `utf8towc` returns DecodeMismatch 0x2 rather than OK — so OK is
not equivalent to "consumed exactly `length` bytes". -/
theorem C3_cex :
    utf8DecodeOne (List.take 1 [0]) = .ok 0 1
      ∧ (utf8towc envAll [0] 1 st0).ret = 0x2 := by decide

/-- C3, amended.  When a UTF-8-forcing locale is available (and `length` is a
feasible buffer size, below the in-band `(size_t)-2` code), `utf8towc`
returns OK exactly when the decoder consumes exactly `length` bytes AND the
decoded codepoint is nonnull, and returns DecodeMismatch 0x2 in every other
case (malformed, truncated, multi-codepoint, and additionally the null
codepoint); the OK, LocaleUnavailable and DecodeMismatch values 0, 0x1, 0x2
are pairwise distinct. -/
theorem C3_status (env : Env) (b : List Nat) (n : Nat) (s : CState)
    (h1 : utf8LocaleAvail env) (h2 : n < 2 ^ 64 - 2) :
    ((utf8towc env b n s).ret = 0
        ↔ ∃ cp, utf8DecodeOne (b.take n) = .ok cp n ∧ cp ≠ 0)
      ∧ ((utf8towc env b n s).ret = 0x2
        ↔ ¬ ∃ cp, utf8DecodeOne (b.take n) = .ok cp n ∧ cp ≠ 0)
      ∧ (0 : Nat) ≠ 0x1 ∧ (0 : Nat) ≠ 0x2 ∧ (0x1 : Nat) ≠ 0x2 := by
  have hiff := mbrtowcRetIff b n h2
  rw [utf8towc_eq, if_pos h1]
  by_cases hq : (mbrtowc mbInit b n).1 = n
  · have hex := hiff.mp hq
    refine ⟨?_, ?_, by decide, by decide, by decide⟩ <;> simp [hq, hex]
  · have hnex : ¬ ∃ cp, utf8DecodeOne (b.take n) = .ok cp n ∧ cp ≠ 0 :=
      fun hx => hq (hiff.mpr hx)
    refine ⟨?_, ?_, by decide, by decide, by decide⟩ <;> simp [hq, hnex]

/-- C3, witness: a complete 3-byte sequence with length 3 yields OK. -/
theorem C3_status_w : (utf8towc envAll [0xE3, 0x81, 0x82] 3 st0).ret = 0 := by
  have h := C3_status envAll [0xE3, 0x81, 0x82] 3 st0 (Or.inl rfl) (by norm_num)
  exact h.1.mpr ⟨0x3042, by decide, by decide⟩

/-- C4.  Locale construction in both transcoding operations first attempts
the primary name `"C.UTF-8"` (recorded alone in the attempt trace whenever it
succeeds) and attempts `"en_US.UTF-8"` exactly when the primary fails; and
when both fail, `utf8towc` returns 0x1 and `wctoutf8` returns -0x1 without
invoking the conversion primitive, without touching the active-locale
register, and without touching any locale handle. -/
theorem C4_fallback_order (env : Env) (b : List Nat) (n : Nat) (wc : Int) (s : CState) :
    (env.localeOk "C.UTF-8" = true →
        (utf8_locale env s).2.calls = s.calls ++ ["C.UTF-8"])
      ∧ (env.localeOk "C.UTF-8" = false →
        (utf8_locale env s).2.calls = s.calls ++ ["C.UTF-8", "en_US.UTF-8"])
      ∧ (utf8towc env b n s).s.calls = (utf8_locale env s).2.calls
      ∧ (wctoutf8 env wc s).s.calls = (utf8_locale env s).2.calls
      ∧ (¬ utf8LocaleAvail env →
          (utf8towc env b n s).ret = 0x1
        ∧ (utf8towc env b n s).wcbuf = none
        ∧ (utf8towc env b n s).s.active = s.active
        ∧ (utf8towc env b n s).s.primCalls = s.primCalls
        ∧ (utf8towc env b n s).s.live = s.live
        ∧ (wctoutf8 env wc s).ret = -0x1
        ∧ (wctoutf8 env wc s).buf = []
        ∧ (wctoutf8 env wc s).s.active = s.active
        ∧ (wctoutf8 env wc s).s.primCalls = s.primCalls
        ∧ (wctoutf8 env wc s).s.live = s.live) := by
  rw [utf8towc_eq, wctoutf8_eq, utf8_locale_eq]
  rcases h1 : env.localeOk "C.UTF-8" <;> rcases h2 : env.localeOk "en_US.UTF-8" <;>
    simp [utf8LocaleAvail, h1, h2]

/-- C4, witness: with neither UTF-8 name resolving, both transcoding
operations return their LocaleUnavailable sentinels. -/
theorem C4_fallback_order_w :
    (utf8towc envNone [65] 1 st0).ret = 0x1 ∧ (wctoutf8 envNone 65 st0).ret = -0x1 := by
  have h := (C4_fallback_order envNone [65] 1 65 st0).2.2.2.2 (by decide)
  exact ⟨h.1, h.2.2.2.2.2.1⟩

/-- C5.  `wctoutf8` returns -0x1 exactly on locale-construction failure;
with a locale available it returns -0x2 exactly when the `ssize_t` view of
the encoder's result is zero or negative, and otherwise returns the positive
byte count itself; the two negative sentinels are distinct from each other
and from every non-negative success value. -/
theorem C5_encode_status (env : Env) (wc : Int) (s : CState) :
    (¬ utf8LocaleAvail env → (wctoutf8 env wc s).ret = -0x1)
      ∧ (utf8LocaleAvail env →
          ((wctoutf8 env wc s).ret = -0x2 ↔ wcrtombSsize wc ≤ 0))
      ∧ (utf8LocaleAvail env → 0 < wcrtombSsize wc →
          (wctoutf8 env wc s).ret = wcrtombSsize wc ∧ 0 ≤ (wctoutf8 env wc s).ret)
      ∧ (-0x1 : Int) ≠ -0x2
      ∧ (∀ k : Int, 0 ≤ k → k ≠ -0x1 ∧ k ≠ -0x2) := by
  rw [wctoutf8_eq]
  unfold wcrtombSsize
  by_cases h : utf8LocaleAvail env
  · rw [if_pos h]
    refine ⟨fun hc => absurd h hc, fun _ => ?_, fun _ hpos => ?_, by decide,
      fun k hk => ⟨by omega, by omega⟩⟩
    · by_cases hr : toSsize (wcrtomb mbInit wc).1 ≤ 0
      · simp [hr]
      · simp only [if_neg hr]
        constructor
        · intro he
          omega
        · intro he
          omega
    · dsimp only
      rw [if_neg (by omega)]
      exact ⟨rfl, by omega⟩
  · rw [if_neg h]
    exact ⟨fun _ => rfl, fun hc => absurd hc h, fun hc => absurd hc h, by decide,
      fun k hk => ⟨by omega, by omega⟩⟩

/-- C5, witness: encoding the ASCII codepoint 97 returns byte count 1. -/
theorem C5_encode_status_w : (wctoutf8 envAll 97 st0).ret = 1 := by
  have h := (C5_encode_status envAll 97 st0).2.2.1 (Or.inl rfl) (by decide)
  exact h.1.trans (by decide)

/-- C6, counterexample.  When native-locale construction fails,
`iswblank_native` does not return a distinct Unavailable signal without
classifying: it invokes the classification primitive (the primitive-call
counter increments) and returns its ordinary result 1 — the same value it
returns when construction succeeds — whereas `iswspace_native` in the same
environment returns its -1 sentinel. -/
theorem C6_cex :
    (iswblank_native envNone 32 st0).1 = 1
      ∧ (iswblank_native envNone 32 st0).2.primCalls = st0.primCalls + 1
      ∧ (iswblank_native envAll 32 st0).1 = 1
      ∧ (iswspace_native envNone 32 st0).1 = -1 := by decide

/-- C6, amended.  `iswblank_native` does not follow `iswspace_native`'s
failure pattern: it always performs the `iswblank` classification — under the
freshly built native locale when construction succeeds, and under the
previously active locale when construction fails — and returns the raw
classification result; no distinct Unavailable signal exists. -/
theorem C6_blank_no_sentinel (env : Env) (ch : Nat) (s : CState) :
    (iswblank_native env ch s).1
        = env.iswblankFn (if env.localeOk "" then "" else ctypeOf env s.active) ch
      ∧ (iswblank_native env ch s).2.primCalls = s.primCalls + 1 := by
  rw [iswblank_native_eq]
  rcases h : env.localeOk "" <;> simp [h]

/-- C7, counterexample.  The round-trip law fails at the codepoint 0:
`wctoutf8` encodes it with positive byte count 1 (storing `[0x00]`), but
`utf8towc` on the resulting single byte with length 1 does not return OK
(`mbrtowc` returns 0 for the null wide character, tripping the `!= length`
test). -/
theorem C7_cex :
    (wctoutf8 envAll 0 st0).ret = 1 ∧ (wctoutf8 envAll 0 st0).buf = [0]
      ∧ (utf8towc envAll [0] 1 st0).ret ≠ 0 := by decide

/-- C7, amended.  For every nonnull codepoint `c` encodable in UTF-8 (with a
UTF-8-forcing locale available), `wctoutf8` returns a positive byte count
equal to the length of the encoding it stores, and `utf8towc` applied to
those bytes with that exact length returns OK and yields `c` back. -/
theorem C7_roundtrip (env : Env) (c : Nat) (bs : List Nat) (s : CState)
    (h1 : utf8LocaleAvail env) (h2 : utf8Encode c = some bs) (h3 : c ≠ 0) :
    0 < (wctoutf8 env (c : Int) s).ret
      ∧ (wctoutf8 env (c : Int) s).ret = (bs.length : Int)
      ∧ (wctoutf8 env (c : Int) s).buf = bs
      ∧ (utf8towc env bs bs.length s).ret = 0
      ∧ (utf8towc env bs bs.length s).wcbuf = some c := by
  have hlen := utf8Encode_length h2
  have hdec := utf8towc_encode_ok env c bs s h1 h2 h3
  have hw : wcrtomb mbInit (c : Int) = (bs.length, bs) := by
    unfold wcrtomb
    rw [if_pos (by positivity)]
    simp only [Int.toNat_natCast, h2]
  have hts : toSsize bs.length = (bs.length : Int) := by
    unfold toSsize
    rw [if_pos (by omega)]
  have hpos : (0 : Int) < (bs.length : Int) := by exact_mod_cast hlen.1
  rw [wctoutf8_eq, if_pos h1]
  dsimp only
  rw [hw]
  dsimp only
  rw [hts, if_neg (by omega)]
  exact ⟨hpos, rfl, rfl, hdec.1, hdec.2⟩

/-- C7, witness: the round trip at codepoint 0x3042 through its 3-byte
encoding. -/
theorem C7_roundtrip_w :
    (wctoutf8 envAll 0x3042 st0).ret = 3
      ∧ (utf8towc envAll [0xE3, 0x81, 0x82] 3 st0).ret = 0
      ∧ (utf8towc envAll [0xE3, 0x81, 0x82] 3 st0).wcbuf = some 0x3042 := by
  have h := C7_roundtrip envAll 0x3042 [0xE3, 0x81, 0x82] st0 (Or.inl rfl)
    (by decide) (by decide)
  exact ⟨h.2.1, h.2.2.2.1, h.2.2.2.2⟩

/-- C8, code bug.  When `newlocale(LC_CTYPE_MASK, "", 0)` fails,
`iswblank_native`, `towupper_native` and `towlower_native` — which, unlike
the other three operations, have no null check — pass the null handle to
`freelocale`, i.e. the release primitive IS invoked with an invalid handle
(`badFree` is set), contradicting the claim and the spec's resource
discipline; the three null-checking operations attempt no release on that
path, and on success paths every operation releases exactly the handle it
constructed (the live-handle set returns to its pre-call value with no bad
free). -/
theorem C8_free_discipline :
    (iswblank_native envNone 65 st0).2.badFree = true
      ∧ (towupper_native envNone 65 st0).2.badFree = true
      ∧ (towlower_native envNone 65 st0).2.badFree = true
      ∧ (iswspace_native envNone 65 st0).2.badFree = false
      ∧ (utf8towc envNone [65] 1 st0).s.badFree = false
      ∧ (wctoutf8 envNone 65 st0).s.badFree = false
      ∧ (utf8towc envAll [65] 1 st0).s.badFree = false
      ∧ (utf8towc envAll [65] 1 st0).s.live = st0.live
      ∧ (wctoutf8 envAll 65 st0).s.badFree = false
      ∧ (wctoutf8 envAll 65 st0).s.live = st0.live
      ∧ (iswspace_native envAll 65 st0).2.badFree = false
      ∧ (iswspace_native envAll 65 st0).2.live = st0.live
      ∧ (iswblank_native envAll 65 st0).2.badFree = false
      ∧ (iswblank_native envAll 65 st0).2.live = st0.live
      ∧ (towupper_native envAll 65 st0).2.badFree = false
      ∧ (towupper_native envAll 65 st0).2.live = st0.live
      ∧ (towlower_native envAll 65 st0).2.badFree = false
      ∧ (towlower_native envAll 65 st0).2.live = st0.live := by decide

/-- C9.  Each operation's caller-visible result depends only on the
environment, the inputs, and (for the three operations lacking a null check)
the pre-call active-locale register — never on handle counters, traces, or
any other residue of earlier calls: two invocations from states agreeing on
the register return equal results.  Moreover each transcoding call feeds the
conversion primitive the zero-initialized shift state `mbInit`. -/
theorem C9_stateless (env : Env) (b : List Nat) (n : Nat) (wc : Int) (ch : Nat)
    (s1 s2 : CState) (h : s1.active = s2.active) :
    ((utf8towc env b n s1).ret = (utf8towc env b n s2).ret
        ∧ (utf8towc env b n s1).wcbuf = (utf8towc env b n s2).wcbuf)
      ∧ ((wctoutf8 env wc s1).ret = (wctoutf8 env wc s2).ret
        ∧ (wctoutf8 env wc s1).buf = (wctoutf8 env wc s2).buf)
      ∧ (iswspace_native env ch s1).1 = (iswspace_native env ch s2).1
      ∧ (iswblank_native env ch s1).1 = (iswblank_native env ch s2).1
      ∧ (towupper_native env ch s1).1 = (towupper_native env ch s2).1
      ∧ (towlower_native env ch s1).1 = (towlower_native env ch s2).1
      ∧ (utf8LocaleAvail env →
          (utf8towc env b n s1).ret = (if (mbrtowc mbInit b n).1 ≠ n then 0x2 else 0)
        ∧ (utf8towc env b n s1).wcbuf = (mbrtowc mbInit b n).2
        ∧ (wctoutf8 env wc s1).buf = (wcrtomb mbInit wc).2) := by
  rw [utf8towc_eq env b n s1, utf8towc_eq env b n s2, wctoutf8_eq env wc s1,
    wctoutf8_eq env wc s2, iswspace_native_eq env ch s1, iswspace_native_eq env ch s2,
    iswblank_native_eq env ch s1, iswblank_native_eq env ch s2,
    towupper_native_eq env ch s1, towupper_native_eq env ch s2,
    towlower_native_eq env ch s1, towlower_native_eq env ch s2]
  split_ifs <;> simp_all

/-- C9, witness: two states differing in every field except the register
give the same decode result. -/
theorem C9_stateless_w :
    (utf8towc envAll [65] 1 st0).ret = (utf8towc envAll [65] 1 st1).ret :=
  (C9_stateless envAll [65] 1 65 65 st0 st1 rfl).1.1

/-- C10.  `iswspace_native` only ever returns -1, 0 or 1; it returns -1
exactly when native-locale construction fails, and with the native locale
installed it returns 1 exactly when the underlying `iswspace` result is
nonzero (any nonzero value is normalized to 1). -/
theorem C10_tristate (env : Env) (ch : Nat) (s : CState) :
    ((iswspace_native env ch s).1 = -1 ∨ (iswspace_native env ch s).1 = 0
        ∨ (iswspace_native env ch s).1 = 1)
      ∧ ((iswspace_native env ch s).1 = -1 ↔ env.localeOk "" = false)
      ∧ (env.localeOk "" = true →
          ((iswspace_native env ch s).1 = 1 ↔ env.iswspaceFn "" ch ≠ 0)) := by
  rw [iswspace_native_eq]
  rcases hl : env.localeOk ""
  · simp [hl]
  · simp only [hl, if_true]
    split_ifs <;> simp_all

/-- C10, witness: the space character classifies as 1. -/
theorem C10_tristate_w : (iswspace_native envAll 32 st0).1 = 1 := by
  have h := (C10_tristate envAll 32 st0).2.2 rfl
  exact h.mpr (by decide)

end CtypeC
